import Mathlib

/-!
Shallow embedding of the client-side realtime conversation-inbox engine
(frontend websocket/reconciliation service).  The repository carries two
versions of the service: the current one resolves the target of a
new_message event through the field named conversation, the sibling
version through the field named conversation_id.  Both handlers are
embedded.  Asynchronous operations (detail fetch, close, load-more) are
split into a synchronous start phase, which runs up to the first await,
and a resolve phase, which runs the continuation on the HTTP outcome;
this mirrors the run-to-completion semantics of the single-threaded
event loop, under which other push events may be processed between the
two phases.
-/

namespace RealtimeInbox

/-- User record, from the conversation model declarations. -/
structure User where
  id : Nat
  username : String
  email : String
  first_name : String
  last_name : String
  full_name : Option String
deriving DecidableEq, Repr

/-- Contact record, from the conversation model declarations. -/
structure Contact where
  id : String
  name : Option String
  phone : Option String
  email : Option String
  created_at : String
  updated_at : String
deriving DecidableEq, Repr

/-- Message direction, fixed at creation. -/
inductive Direction where
  | SENT
  | RECEIVED
deriving DecidableEq, Repr

/-- Conversation status. -/
inductive Status where
  | OPEN
  | CLOSED
deriving DecidableEq, Repr

/-- Wire-level message payload.  The current model interface declares a
required field named conversation holding the owning conversation id,
while the sibling model declares conversation_id instead; an inbound
JSON payload may carry either key, and reading the absent key in the
handler yields undefined.  Both are therefore modelled as optional. -/
structure Message where
  id : String
  conversation : Option String
  conversation_id : Option String
  direction : Direction
  content : String
  timestamp : Option String
  author_user : Option User
  is_internal : Option Bool
  created_at : Option String
deriving DecidableEq, Repr

/-- Conversation summary record held in the Store and in the View. -/
structure Conversation where
  id : String
  status : Status
  contact : Option Contact
  assigned_user : Option User
  created_at : Option String
  updated_at : Option String
  closed_at : Option String
  message_count : Option Nat
  unread_count : Option Nat
  last_message : Option Message
  messages : Option (List Message)
deriving DecidableEq, Repr

/-- Inbound push envelope. -/
structure WebSocketMessage where
  type : String
  conversations : Option (List Conversation)
  conversation : Option Conversation
  message : Option Message
  error : Option String
deriving DecidableEq, Repr

/-- Response of the conversation detail endpoint. -/
structure ConversationMessagesResponse where
  status : Status
  created_at : String
  updated_at : String
  closed_at : Option String
  messages : List Message
  contact : Option Contact
  assigned_user : Option User
deriving DecidableEq, Repr

/-- Response of the paginated conversation list endpoint. -/
structure ConversationListResponse where
  results : List Conversation
  count : Nat
  next : Option String
  previous : Option String
deriving DecidableEq, Repr

/-- Outbound send_message envelope, prior to JSON serialization. -/
structure OutboundMessage where
  type : String
  conversation_id : String
  content : String
  is_internal : Bool
deriving DecidableEq, Repr

/-- The mutable state of the service: the Store list, the Active
Conversation View, the pagination counters and the loading flags, plus
the transport readyState abstracted to whether the socket is OPEN. -/
structure EngineState where
  conversations : List Conversation
  currentConversation : Option Conversation
  currentPage : Nat
  hasMorePages : Bool
  loading : Bool
  conversationLoading : Bool
  loadingMore : Bool
  socketOpen : Bool
deriving DecidableEq, Repr

/-- Data captured by the closure of an in-flight detail fetch: the
requested conversation id and the Store entry found before the await. -/
structure DetailPending where
  conversationId : String
  existing : Option Conversation
deriving DecidableEq, Repr

/-- Numeric reading of the optional unread counter: an absent field
reads as 0, mirroring the expression unread_count or-else 0. -/
def unreadOf (c : Conversation) : Nat := c.unread_count.getD 0

/-- Numeric reading of the optional message counter. -/
def messageCountOf (c : Conversation) : Nat := c.message_count.getD 0

/-- The message list of a conversation, an absent array reading as empty. -/
def messagesOf (c : Conversation) : List Message := c.messages.getD []

/-- First Store entry with the given id. -/
def findConv (s : EngineState) (cid : String) : Option Conversation :=
  s.conversations.find? (fun c => c.id == cid)

/-- Whether a new_message event targets the active conversation, the
conjunction currentConv and currentConv.id equals message.conversation. -/
def newMessageTargetsActive (s : EngineState) (m : Message) : Bool :=
  match s.currentConversation with
  | some cur => decide (m.conversation = some cur.id)
  | none => false

/-- The sibling-version test, reading the conversation_id field. -/
def newMessageTargetsActiveV2 (s : EngineState) (m : Message) : Bool :=
  match s.currentConversation with
  | some cur => decide (m.conversation_id = some cur.id)
  | none => false

/-- The per-entry update applied by the map inside handleNewMessage:
a matching entry gets the new last_message, an incremented
message_count, the message appended to its cached list, and unread_count
incremented exactly when the direction is RECEIVED and the target is not
the active conversation; a non-matching entry is returned unchanged. -/
def applyNewMessageToConv (m : Message) (isCurrent : Bool) (conv : Conversation) : Conversation :=
  if m.conversation = some conv.id then
    { conv with
        last_message := some m
        message_count := some (conv.message_count.getD 0 + 1)
        unread_count :=
          if m.direction = Direction.RECEIVED ∧ isCurrent = false then
            some (conv.unread_count.getD 0 + 1)
          else
            some (conv.unread_count.getD 0)
        messages := some (conv.messages.getD [] ++ [m]) }
  else conv

/-- handleNewMessage of the current service version: appends to the
active View when the target is active, then maps the Store list. -/
def handleNewMessage (m : Message) (s : EngineState) : EngineState :=
  let isCurrent := newMessageTargetsActive s m
  let current' :=
    if isCurrent then
      match s.currentConversation with
      | some cur => some { cur with messages := some (cur.messages.getD [] ++ [m]) }
      | none => none
    else s.currentConversation
  { s with
      currentConversation := current'
      conversations := s.conversations.map (applyNewMessageToConv m isCurrent) }

/-- The per-entry update of the sibling version: keyed on
conversation_id and without appending to the cached Store message list. -/
def applyNewMessageToConvV2 (m : Message) (isCurrent : Bool) (conv : Conversation) : Conversation :=
  if m.conversation_id = some conv.id then
    { conv with
        last_message := some m
        message_count := some (conv.message_count.getD 0 + 1)
        unread_count :=
          if m.direction = Direction.RECEIVED ∧ isCurrent = false then
            some (conv.unread_count.getD 0 + 1)
          else
            some (conv.unread_count.getD 0) }
  else conv

/-- handleNewMessage of the sibling service version. -/
def handleNewMessageV2 (m : Message) (s : EngineState) : EngineState :=
  let isCurrent := newMessageTargetsActiveV2 s m
  let current' :=
    if isCurrent then
      match s.currentConversation with
      | some cur => some { cur with messages := some (cur.messages.getD [] ++ [m]) }
      | none => none
    else s.currentConversation
  { s with
      currentConversation := current'
      conversations := s.conversations.map (applyNewMessageToConvV2 m isCurrent) }

/-- new_conversation handling: prepend the pushed record to the Store. -/
def addNewConversation (c : Conversation) (s : EngineState) : EngineState :=
  { s with conversations := c :: s.conversations }

/-- Zero the unread counter of the Store entry with the given id. -/
def resetUnreadCount (cid : String) (s : EngineState) : EngineState :=
  let zeroed := s.conversations.map (fun conv : Conversation =>
    if conv.id = cid then { conv with unread_count := some 0 } else conv)
  { s with conversations := zeroed }

/-- Identity on the fetched message list, as in the source. -/
def adjustMessagesDirection (ms : List Message) : List Message := ms

/-- Synchronous prefix of getConversationDetail, up to the await: raise
the loading flag, optimistically zero the unread counter in the Store,
and capture the Store entry for the merge performed at resolution. -/
def getConversationDetailStart (cid : String) (s : EngineState) : EngineState × DetailPending :=
  let s1 := { s with conversationLoading := true }
  let s2 := resetUnreadCount cid s1
  (s2, { conversationId := cid, existing := s2.conversations.find? (fun c => c.id == cid) })

/-- Continuation of getConversationDetail after the detail response
resolves: construct the active-view Conversation by merging response
fields with the captured Store entry and publish it. -/
def getConversationDetailResolve (p : DetailPending) (resp : ConversationMessagesResponse)
    (s : EngineState) : EngineState :=
  let cached := p.existing.bind Conversation.messages
  let conversation : Conversation :=
    { id := p.conversationId
      status := resp.status
      contact := (p.existing.bind Conversation.contact).orElse (fun _ => resp.contact)
      assigned_user := (p.existing.bind Conversation.assigned_user).orElse (fun _ => resp.assigned_user)
      created_at := some resp.created_at
      updated_at := some resp.updated_at
      closed_at := resp.closed_at
      message_count := none
      unread_count := some 0
      last_message := none
      messages := some (match cached with
        | some ms => if ms.isEmpty then adjustMessagesDirection resp.messages else ms
        | none => adjustMessagesDirection resp.messages) }
  { s with currentConversation := some conversation, conversationLoading := false }

/-- conversation_updated handling: replace the matching Store entry
wholesale with the pushed record; when the pushed id is the active one,
trigger a detail refetch (returned as the started pending fetch). -/
def updateConversation (c : Conversation) (s : EngineState) : EngineState × Option DetailPending :=
  let replaced := s.conversations.map (fun conv : Conversation =>
    if conv.id = c.id then c else conv)
  let s1 := { s with conversations := replaced }
  match s1.currentConversation with
  | some cur =>
      if cur.id = c.id then
        let r := getConversationDetailStart c.id s1
        (r.1, some r.2)
      else (s1, none)
  | none => (s1, none)

/-- Dispatcher over the inbound envelope: routes the four recognized
event types, requiring the expected payload field; anything else falls
through silently.  Returns the new state, the error notifications
emitted, and the detail fetch triggered, if any. -/
def handleMessage (d : WebSocketMessage) (s : EngineState) :
    EngineState × List String × Option DetailPending :=
  if d.type = "new_message" then
    match d.message with
    | some m => (handleNewMessage m s, [], none)
    | none => (s, [], none)
  else if d.type = "new_conversation" then
    match d.conversation with
    | some c => (addNewConversation c s, [], none)
    | none => (s, [], none)
  else if d.type = "conversation_updated" then
    match d.conversation with
    | some c =>
        let r := updateConversation c s
        (r.1, [], r.2)
    | none => (s, [], none)
  else if d.type = "error" then
    match d.error with
    | some e => (s, [e], none)
    | none => (s, [], none)
  else (s, [], none)

/-- The trim applied to outbound content: removal of leading and
trailing whitespace, as String.prototype.trim does. -/
def jsTrim (s : String) : String :=
  String.mk (((s.data.dropWhile Char.isWhitespace).reverse.dropWhile Char.isWhitespace).reverse)

/-- sendMessage: no-op on blank content; not-connected error when the
socket is not OPEN; otherwise one send_message envelope carrying the
trimmed content.  Returns the unchanged state, the envelope handed to
the transport, and the error notifications emitted.  The try-catch
around the transport send call is not modelled; the send itself is
taken to succeed. -/
def sendMessage (s : EngineState) (conversationId : String) (content : String)
    (isInternal : Bool) : EngineState × Option OutboundMessage × List String :=
  if jsTrim content = "" then (s, none, [])
  else if s.socketOpen = false then (s, none, ["WebSocket not connected"])
  else (s, some { type := "send_message", conversation_id := conversationId,
                  content := jsTrim content, is_internal := isInternal }, [])

/-- Synchronous prefix of closeConversation: raise the loading flag. -/
def closeConversationStart (s : EngineState) : EngineState :=
  { s with loading := true }

/-- Continuation of closeConversation on a successful close response:
mark the Store entry CLOSED with the returned closed_at, mirror into the
View when the closed conversation is active, reset the loading flag. -/
def closeConversationResolve (conversationId : String) (closedAt : Option String)
    (s : EngineState) : EngineState :=
  let closedList := s.conversations.map (fun conv : Conversation =>
    if conv.id = conversationId then
      { conv with status := Status.CLOSED, closed_at := closedAt }
    else conv)
  let s1 := { s with conversations := closedList }
  let s2 :=
    match s1.currentConversation with
    | some cur =>
        if cur.id = conversationId then
          let closedCur : Conversation :=
            { cur with status := Status.CLOSED, closed_at := closedAt }
          { s1 with currentConversation := some closedCur }
        else s1
    | none => s1
  { s2 with loading := false }

/-- Synchronous prefix of loadMoreConversations: the re-entry guard,
then the flag raise and the page increment; the second component is the
page requested from the server, none when the guard returned early. -/
def loadMoreConversationsStart (s : EngineState) : EngineState × Option Nat :=
  if s.hasMorePages = false ∨ s.loadingMore = true then (s, none)
  else ({ s with loadingMore := true, currentPage := s.currentPage + 1 },
        some (s.currentPage + 1))

/-- Continuation of loadMoreConversations on a successful page fetch:
append the zero-unread page to the Store and refresh the has-more flag. -/
def loadMoreConversationsResolveOk (resp : ConversationListResponse)
    (s : EngineState) : EngineState :=
  let page := resp.results.map (fun c : Conversation => { c with unread_count := some 0 })
  { s with
      hasMorePages := resp.next.isSome
      conversations := s.conversations ++ page
      loadingMore := false }

/-- Continuation of loadMoreConversations on a failed page fetch: the
page counter rolls back and the loading flag resets; the Store and the
has-more flag are untouched. -/
def loadMoreConversationsResolveErr (s : EngineState) : EngineState :=
  { s with currentPage := s.currentPage - 1, loadingMore := false }

/-- A conversation fixture: OPEN, no references, zero unread, empty cache. -/
def mkConv (cid : String) : Conversation :=
  { id := cid, status := Status.OPEN, contact := none, assigned_user := none,
    created_at := none, updated_at := none, closed_at := none,
    message_count := none, unread_count := some 0, last_message := none,
    messages := some [] }

/-- A message fixture carrying the conversation id in a chosen field. -/
def mkMessage (mid : String) (conv convId : Option String) (dir : Direction)
    (content : String) : Message :=
  { id := mid, conversation := conv, conversation_id := convId, direction := dir,
    content := content, timestamp := none, author_user := none,
    is_internal := none, created_at := none }

/-- A state fixture on page 1 with an open socket and no load in flight. -/
def baseState (convs : List Conversation) (cur : Option Conversation) : EngineState :=
  { conversations := convs, currentConversation := cur, currentPage := 1,
    hasMorePages := true, loading := false, conversationLoading := false,
    loadingMore := false, socketOpen := true }

theorem map_eq_self_of_mem {α : Type _} {l : List α} {f : α → α}
    (h : ∀ a ∈ l, f a = a) : l.map f = l := by
  induction l with
  | nil => rfl
  | cons a t ih =>
      simp only [List.map_cons, List.cons.injEq]
      exact ⟨h a (by simp), ih (fun b hb => h b (by simp [hb]))⟩

theorem getD_map_of_lt {α β : Type _} (f : α → β) (l : List α) (i : Nat)
    (db : β) (da : α) (hi : i < l.length) :
    (l.map f).getD i db = f (l.getD i da) := by
  have hi2 : i < (l.map f).length := by simpa using hi
  rw [List.getD_eq_getElem _ _ hi2, List.getD_eq_getElem _ _ hi, List.getElem_map]

theorem handleNewMessage_conversations (m : Message) (s : EngineState) :
    (handleNewMessage m s).conversations =
      s.conversations.map (applyNewMessageToConv m (newMessageTargetsActive s m)) := rfl

theorem handleNewMessageV2_conversations (m : Message) (s : EngineState) :
    (handleNewMessageV2 m s).conversations =
      s.conversations.map (applyNewMessageToConvV2 m (newMessageTargetsActiveV2 s m)) := rfl

theorem handleNewMessage_getD (m : Message) (s : EngineState) (i : Nat)
    (d : Conversation) (hi : i < s.conversations.length) :
    (handleNewMessage m s).conversations.getD i d =
      applyNewMessageToConv m (newMessageTargetsActive s m) (s.conversations.getD i d) := by
  rw [handleNewMessage_conversations]
  exact getD_map_of_lt _ _ _ _ _ hi

theorem handleNewMessageV2_getD (m : Message) (s : EngineState) (i : Nat)
    (d : Conversation) (hi : i < s.conversations.length) :
    (handleNewMessageV2 m s).conversations.getD i d =
      applyNewMessageToConvV2 m (newMessageTargetsActiveV2 s m) (s.conversations.getD i d) := by
  rw [handleNewMessageV2_conversations]
  exact getD_map_of_lt _ _ _ _ _ hi

theorem handleNewMessage_frame (m : Message) (s : EngineState)
    (h : ∀ c ∈ s.conversations, m.conversation ≠ some c.id)
    (hcur : newMessageTargetsActive s m = false) :
    handleNewMessage m s = s := by
  have h1 : (handleNewMessage m s).currentConversation = s.currentConversation := by
    simp [handleNewMessage, hcur]
  have h2 : (handleNewMessage m s).conversations = s.conversations := by
    rw [handleNewMessage_conversations]
    apply map_eq_self_of_mem
    intro c hc
    unfold applyNewMessageToConv
    rw [if_neg (h c hc)]
  have h3 : handleNewMessage m s =
      { s with currentConversation := (handleNewMessage m s).currentConversation,
               conversations := (handleNewMessage m s).conversations } := rfl
  rw [h3, h1, h2]

theorem handleNewMessageV2_frame (m : Message) (s : EngineState)
    (h : ∀ c ∈ s.conversations, m.conversation_id ≠ some c.id)
    (hcur : newMessageTargetsActiveV2 s m = false) :
    handleNewMessageV2 m s = s := by
  have h1 : (handleNewMessageV2 m s).currentConversation = s.currentConversation := by
    simp [handleNewMessageV2, hcur]
  have h2 : (handleNewMessageV2 m s).conversations = s.conversations := by
    rw [handleNewMessageV2_conversations]
    apply map_eq_self_of_mem
    intro c hc
    unfold applyNewMessageToConvV2
    rw [if_neg (h c hc)]
  have h3 : handleNewMessageV2 m s =
      { s with currentConversation := (handleNewMessageV2 m s).currentConversation,
               conversations := (handleNewMessageV2 m s).conversations } := rfl
  rw [h3, h1, h2]

/-- Claim C7: sendMessage with blank or whitespace-only content performs no
transport send, emits no error notification, and changes no state; with
non-blank content while the transport is not OPEN it sends nothing and
emits a not-connected error, dropping the command; otherwise it sends
exactly one send_message envelope whose content field is the trimmed
input. -/
theorem sendMessage_spec :
    (∀ (s : EngineState) (cid content : String) (internal : Bool),
        jsTrim content = "" →
        sendMessage s cid content internal = (s, none, [])) ∧
    (∀ (s : EngineState) (cid content : String) (internal : Bool),
        jsTrim content ≠ "" → s.socketOpen = false →
        sendMessage s cid content internal = (s, none, ["WebSocket not connected"])) ∧
    (∀ (s : EngineState) (cid content : String) (internal : Bool),
        jsTrim content ≠ "" → s.socketOpen = true →
        sendMessage s cid content internal =
          (s, some { type := "send_message", conversation_id := cid,
                     content := jsTrim content, is_internal := internal }, [])) := by
  refine ⟨?_, ?_, ?_⟩
  · intro s cid content internal h
    simp [sendMessage, h]
  · intro s cid content internal h1 h2
    simp [sendMessage, h1, h2]
  · intro s cid content internal h1 h2
    simp [sendMessage, h1, h2]

/-- A state whose transport is not OPEN. -/
def c7closedState : EngineState := { baseState [] none with socketOpen := false }

/-- Witness for C7: the three branches at concrete inputs. -/
theorem sendMessage_spec_witness :
    sendMessage (baseState [] none) "c1" "   " false = (baseState [] none, none, []) ∧
    sendMessage c7closedState "c1" "hello" false =
      (c7closedState, none, ["WebSocket not connected"]) ∧
    sendMessage (baseState [] none) "c1" " hi " true =
      (baseState [] none, some { type := "send_message", conversation_id := "c1",
                                 content := jsTrim " hi ", is_internal := true }, []) :=
  ⟨sendMessage_spec.1 _ _ _ _ (by decide),
   sendMessage_spec.2.1 _ _ _ _ (by decide) (by decide),
   sendMessage_spec.2.2 _ _ _ _ (by decide) (by decide)⟩

/-- Claim C6: loadMoreConversations rolls the page counter back on a
failed page fetch while leaving the loaded Store entries untouched and
the loading flag reset, so that a subsequent call retries the same page;
a call made while a load is in flight, or when no further page exists,
returns without changing the page counter or the Store. -/
theorem loadMoreConversations_rollback :
    (∀ s : EngineState, s.hasMorePages = false ∨ s.loadingMore = true →
        loadMoreConversationsStart s = (s, none)) ∧
    (∀ s : EngineState, s.hasMorePages = true → s.loadingMore = false →
        (loadMoreConversationsStart s).2 = some (s.currentPage + 1) ∧
        (loadMoreConversationsResolveErr (loadMoreConversationsStart s).1).currentPage =
          s.currentPage ∧
        (loadMoreConversationsResolveErr (loadMoreConversationsStart s).1).conversations =
          s.conversations ∧
        (loadMoreConversationsResolveErr (loadMoreConversationsStart s).1).loadingMore =
          false ∧
        (loadMoreConversationsStart
          (loadMoreConversationsResolveErr (loadMoreConversationsStart s).1)).2 =
          some (s.currentPage + 1)) := by
  constructor
  · intro s h
    unfold loadMoreConversationsStart
    rw [if_pos h]
  · intro s h1 h2
    refine ⟨?_, ?_, ?_, ?_, ?_⟩ <;>
      simp [loadMoreConversationsStart, loadMoreConversationsResolveErr, h1, h2]

/-- A state with no further pages. -/
def c6noMoreState : EngineState := { baseState [] none with hasMorePages := false }

/-- Witness for C6: the guard case and the rollback case at concrete inputs. -/
theorem loadMoreConversations_rollback_witness :
    loadMoreConversationsStart c6noMoreState = (c6noMoreState, none) ∧
    ((loadMoreConversationsStart (baseState [] none)).2 = some 2 ∧
     (loadMoreConversationsResolveErr
        (loadMoreConversationsStart (baseState [] none)).1).currentPage = 1 ∧
     (loadMoreConversationsResolveErr
        (loadMoreConversationsStart (baseState [] none)).1).conversations = [] ∧
     (loadMoreConversationsResolveErr
        (loadMoreConversationsStart (baseState [] none)).1).loadingMore = false ∧
     (loadMoreConversationsStart
        (loadMoreConversationsResolveErr
          (loadMoreConversationsStart (baseState [] none)).1)).2 = some 2) :=
  ⟨loadMoreConversations_rollback.1 _ (Or.inl (by decide)),
   loadMoreConversations_rollback.2 _ (by decide) (by decide)⟩

/-- Claim C9: an inbound push event whose type is none of new_message,
new_conversation, conversation_updated, error, or whose expected payload
field is absent, leaves the state unchanged and emits nothing; an
error-typed event with a payload only emits on the error channel and
mutates neither Store nor View. -/
theorem handleMessage_tolerance :
    (∀ (d : WebSocketMessage) (s : EngineState),
        d.type ≠ "new_message" → d.type ≠ "new_conversation" →
        d.type ≠ "conversation_updated" → d.type ≠ "error" →
        handleMessage d s = (s, [], none)) ∧
    (∀ (d : WebSocketMessage) (s : EngineState),
        d.type = "new_message" → d.message = none →
        handleMessage d s = (s, [], none)) ∧
    (∀ (d : WebSocketMessage) (s : EngineState),
        d.type = "new_conversation" → d.conversation = none →
        handleMessage d s = (s, [], none)) ∧
    (∀ (d : WebSocketMessage) (s : EngineState),
        d.type = "conversation_updated" → d.conversation = none →
        handleMessage d s = (s, [], none)) ∧
    (∀ (d : WebSocketMessage) (s : EngineState),
        d.type = "error" → d.error = none →
        handleMessage d s = (s, [], none)) ∧
    (∀ (d : WebSocketMessage) (s : EngineState) (e : String),
        d.type = "error" → d.error = some e →
        handleMessage d s = (s, [e], none)) := by
  refine ⟨?_, ?_, ?_, ?_, ?_, ?_⟩
  · intro d s h1 h2 h3 h4
    simp [handleMessage, h1, h2, h3, h4]
  · intro d s ht hp
    simp [handleMessage, ht, hp]
  · intro d s ht hp
    simp [handleMessage, ht, hp]
  · intro d s ht hp
    simp [handleMessage, ht, hp]
  · intro d s ht hp
    simp [handleMessage, ht, hp]
  · intro d s e ht hp
    simp [handleMessage, ht, hp]

/-- An envelope of an unrecognized type. -/
def c9unknown : WebSocketMessage :=
  { type := "presence_ping", conversations := none, conversation := none,
    message := none, error := none }

/-- An envelope of a recognized type with its payload field absent. -/
def c9payloadless (t : String) : WebSocketMessage :=
  { type := t, conversations := none, conversation := none,
    message := none, error := none }

/-- An error envelope with a payload. -/
def c9error : WebSocketMessage :=
  { type := "error", conversations := none, conversation := none,
    message := none, error := some "boom" }

/-- Witness for C9: the tolerance cases at concrete envelopes. -/
theorem handleMessage_tolerance_witness :
    handleMessage c9unknown (baseState [] none) = (baseState [] none, [], none) ∧
    handleMessage (c9payloadless "new_message") (baseState [] none) =
      (baseState [] none, [], none) ∧
    handleMessage (c9payloadless "new_conversation") (baseState [] none) =
      (baseState [] none, [], none) ∧
    handleMessage (c9payloadless "conversation_updated") (baseState [] none) =
      (baseState [] none, [], none) ∧
    handleMessage (c9payloadless "error") (baseState [] none) =
      (baseState [] none, [], none) ∧
    handleMessage c9error (baseState [] none) = (baseState [] none, ["boom"], none) :=
  ⟨handleMessage_tolerance.1 _ _ (by decide) (by decide) (by decide) (by decide),
   handleMessage_tolerance.2.1 _ _ (by decide) (by decide),
   handleMessage_tolerance.2.2.1 _ _ (by decide) (by decide),
   handleMessage_tolerance.2.2.2.1 _ _ (by decide) (by decide),
   handleMessage_tolerance.2.2.2.2.1 _ _ (by decide) (by decide),
   handleMessage_tolerance.2.2.2.2.2 _ _ _ (by decide) (by decide)⟩

/-- Claim C10: a new_message event whose conversation id matches neither
the active conversation nor any Store entry leaves the Store list and the
Active Conversation View completely unchanged: no entry is created for
the unknown id and no field of any existing entry changes. -/
theorem handleNewMessage_no_match_frame (m : Message) (s : EngineState)
    (hstore : ∀ c ∈ s.conversations, m.conversation ≠ some c.id)
    (hactive : ∀ cur, s.currentConversation = some cur → m.conversation ≠ some cur.id) :
    handleNewMessage m s = s := by
  apply handleNewMessage_frame m s hstore
  unfold newMessageTargetsActive
  cases hc : s.currentConversation with
  | none => rfl
  | some cur => simpa using hactive cur hc

/-- Witness for C10: a message for an unknown conversation id at a
concrete state, leaving the state unchanged. -/
theorem handleNewMessage_no_match_frame_witness :
    (∀ c ∈ (baseState [mkConv "a"] none).conversations,
        (mkMessage "m1" (some "zzz") none Direction.RECEIVED "hi").conversation ≠ some c.id) ∧
    handleNewMessage (mkMessage "m1" (some "zzz") none Direction.RECEIVED "hi")
        (baseState [mkConv "a"] none) = baseState [mkConv "a"] none :=
  ⟨by decide,
   handleNewMessage_no_match_frame _ _ (by decide)
     (fun cur hcur => Option.noConfusion hcur)⟩

/-- Claim C1: for a new_message event, the Store entry whose id matches
the id carried by the message gains the delivered message as
last_message and a message_count one higher; its unread count rises by
exactly 1 when the direction is RECEIVED and the target is not the
active conversation, and is otherwise unchanged; every non-matching
Store entry is unaffected. -/
theorem handleNewMessage_store_effects (s : EngineState) (m : Message) (i : Nat)
    (d : Conversation) (hi : i < s.conversations.length) :
    if m.conversation = some (s.conversations.getD i d).id then
      ((handleNewMessage m s).conversations.getD i d).last_message = some m ∧
      messageCountOf ((handleNewMessage m s).conversations.getD i d) =
        messageCountOf (s.conversations.getD i d) + 1 ∧
      unreadOf ((handleNewMessage m s).conversations.getD i d) =
        (if m.direction = Direction.RECEIVED ∧ newMessageTargetsActive s m = false then
          unreadOf (s.conversations.getD i d) + 1
        else unreadOf (s.conversations.getD i d))
    else (handleNewMessage m s).conversations.getD i d = s.conversations.getD i d := by
  rw [handleNewMessage_getD m s i d hi]
  unfold applyNewMessageToConv
  by_cases hm : m.conversation = some (s.conversations.getD i d).id
  · rw [if_pos hm, if_pos hm]
    refine ⟨rfl, by simp [messageCountOf], ?_⟩
    by_cases hcond : m.direction = Direction.RECEIVED ∧ newMessageTargetsActive s m = false
    · rw [if_pos hcond, if_pos hcond]; simp [unreadOf]
    · rw [if_neg hcond, if_neg hcond]; simp [unreadOf]
  · rw [if_neg hm, if_neg hm]

/-- The conversation that is active in the C1 scenario. -/
def c1convA : Conversation := mkConv "a"

/-- The non-active conversation of the C1 scenario, with two unread. -/
def c1convB : Conversation := { mkConv "b" with unread_count := some 2 }

/-- The C1 scenario state: A active, B in the Store with two unread. -/
def c1state : EngineState := baseState [c1convA, c1convB] (some c1convA)

/-- The C1 scenario event: a RECEIVED message for B. -/
def c1msg : Message := mkMessage "m1" (some "b") none Direction.RECEIVED "hi"

/-- Witness for C1: the scenario Store has conversations A (active) and
B (two unread); a RECEIVED message for B arrives. -/
theorem handleNewMessage_store_effects_witness :
    1 < c1state.conversations.length ∧
    (if c1msg.conversation = some (c1state.conversations.getD 1 (mkConv "x")).id then
      ((handleNewMessage c1msg c1state).conversations.getD 1 (mkConv "x")).last_message =
        some c1msg ∧
      messageCountOf ((handleNewMessage c1msg c1state).conversations.getD 1 (mkConv "x")) =
        messageCountOf (c1state.conversations.getD 1 (mkConv "x")) + 1 ∧
      unreadOf ((handleNewMessage c1msg c1state).conversations.getD 1 (mkConv "x")) =
        (if c1msg.direction = Direction.RECEIVED ∧
            newMessageTargetsActive c1state c1msg = false then
          unreadOf (c1state.conversations.getD 1 (mkConv "x")) + 1
        else unreadOf (c1state.conversations.getD 1 (mkConv "x")))
    else (handleNewMessage c1msg c1state).conversations.getD 1 (mkConv "x") =
      c1state.conversations.getD 1 (mkConv "x")) :=
  ⟨by decide, handleNewMessage_store_effects c1state c1msg 1 (mkConv "x") (by decide)⟩

/-- The C3 state: one Store entry with an empty cached message list. -/
def c3state : EngineState := baseState [mkConv "c"] none

/-- The C3 event, delivered twice. -/
def c3msg : Message := mkMessage "m1" (some "c") none Direction.RECEIVED "hi"

/-- Counterexample to C3: delivering the same message twice leaves the
target conversation with two list entries carrying the same message id,
so arrival does duplicate an existing id. -/
theorem handleNewMessage_duplicate_id_cex :
    ((findConv (handleNewMessage c3msg (handleNewMessage c3msg c3state)) "c").map
      (fun c => (messagesOf c).countP (fun msg => msg.id == "m1"))) = some 2 := by
  decide

/-- Claim C3 amended: the handler appends the delivered message to the
matching Store entry unconditionally, with no deduplication by message
id; re-delivery of an id already present therefore adds a second entry
with that id. -/
theorem handleNewMessage_appends (s : EngineState) (m : Message) (i : Nat)
    (d : Conversation) (hi : i < s.conversations.length)
    (hm : m.conversation = some (s.conversations.getD i d).id) :
    messagesOf ((handleNewMessage m s).conversations.getD i d) =
      messagesOf (s.conversations.getD i d) ++ [m] := by
  rw [handleNewMessage_getD m s i d hi]
  unfold applyNewMessageToConv
  rw [if_pos hm]
  simp [messagesOf]

/-- The C3 amended-witness state and message. -/
def c3wState : EngineState := baseState [mkConv "w"] none

/-- The message delivered in the C3 amended witness. -/
def c3wMsg : Message := mkMessage "m9" (some "w") none Direction.RECEIVED "yo"

/-- Witness for the amended C3 at a concrete state. -/
theorem handleNewMessage_appends_witness :
    0 < c3wState.conversations.length ∧
    c3wMsg.conversation = some (c3wState.conversations.getD 0 (mkConv "x")).id ∧
    messagesOf ((handleNewMessage c3wMsg c3wState).conversations.getD 0 (mkConv "x")) =
      messagesOf (c3wState.conversations.getD 0 (mkConv "x")) ++ [c3wMsg] :=
  ⟨by decide, by decide,
   handleNewMessage_appends c3wState c3wMsg 0 (mkConv "x") (by decide) (by decide)⟩

/-- Claim C5: the active-view Conversation constructed when the detail
fetch resolves takes identity, status and timestamps from the response,
contact and assigned_user from the captured Store entry when present
there (falling back to the response), and messages from the Store cache
when that cache is non-empty, otherwise from the response. -/
theorem getConversationDetail_merge_spec (p : DetailPending)
    (resp : ConversationMessagesResponse) (s : EngineState) :
    ∃ v : Conversation,
      (getConversationDetailResolve p resp s).currentConversation = some v ∧
      v.id = p.conversationId ∧
      v.status = resp.status ∧
      v.created_at = some resp.created_at ∧
      v.updated_at = some resp.updated_at ∧
      v.closed_at = resp.closed_at ∧
      (∀ k, p.existing.bind Conversation.contact = some k → v.contact = some k) ∧
      (p.existing.bind Conversation.contact = none → v.contact = resp.contact) ∧
      (∀ u, p.existing.bind Conversation.assigned_user = some u → v.assigned_user = some u) ∧
      (p.existing.bind Conversation.assigned_user = none →
        v.assigned_user = resp.assigned_user) ∧
      (∀ ms, p.existing.bind Conversation.messages = some ms → ms ≠ [] →
        v.messages = some ms) ∧
      ((p.existing.bind Conversation.messages).getD [] = [] →
        v.messages = some resp.messages) := by
  refine ⟨_, rfl, rfl, rfl, rfl, rfl, rfl, ?_, ?_, ?_, ?_, ?_, ?_⟩
  · intro k hk
    show ((p.existing.bind Conversation.contact).orElse fun _ => resp.contact) = some k
    rw [hk]
    rfl
  · intro hk
    show ((p.existing.bind Conversation.contact).orElse fun _ => resp.contact) = resp.contact
    rw [hk]
    rfl
  · intro u hu
    show ((p.existing.bind Conversation.assigned_user).orElse fun _ => resp.assigned_user) =
      some u
    rw [hu]
    rfl
  · intro hu
    show ((p.existing.bind Conversation.assigned_user).orElse fun _ => resp.assigned_user) =
      resp.assigned_user
    rw [hu]
    rfl
  · intro ms hms hne
    show some (match p.existing.bind Conversation.messages with
      | some l => if l.isEmpty then adjustMessagesDirection resp.messages else l
      | none => adjustMessagesDirection resp.messages) = some ms
    rw [hms]
    cases ms with
    | nil => exact absurd rfl hne
    | cons a t => rfl
  · intro hms
    show some (match p.existing.bind Conversation.messages with
      | some l => if l.isEmpty then adjustMessagesDirection resp.messages else l
      | none => adjustMessagesDirection resp.messages) = some resp.messages
    cases hc : p.existing.bind Conversation.messages with
    | none => rfl
    | some l =>
        rw [hc] at hms
        simp only [Option.getD_some] at hms
        subst hms
        rfl

/-- The C2 counterexample start: activate conversation c while no
conversation is active, capturing the in-flight fetch. -/
def c2cexRun : EngineState × DetailPending :=
  getConversationDetailStart "c" (baseState [mkConv "c"] none)

/-- The RECEIVED message delivered while the C2 fetch is in flight. -/
def c2cexMsg : Message := mkMessage "m1" (some "c") none Direction.RECEIVED "hi"

/-- The detail response that resolves the C2 fetch. -/
def c2cexResp : ConversationMessagesResponse :=
  { status := Status.OPEN, created_at := "t0", updated_at := "t0", closed_at := none,
    messages := [c2cexMsg], contact := none, assigned_user := none }

/-- The C2 counterexample final state: the fetch resolves after the
message was processed. -/
def c2cexFinal : EngineState :=
  getConversationDetailResolve c2cexRun.2 c2cexResp (handleNewMessage c2cexMsg c2cexRun.1)

/-- Counterexample to C2: a reachable state in which conversation c is
the active one mirrored into the View, yet its Store entry carries
unread_count 1; the View copy reads 0, so Store and View are not in
lockstep and the unread count of the active conversation in the Store is
not 0. -/
theorem activeUnread_invariant_cex :
    c2cexFinal.currentConversation.map Conversation.id = some "c" ∧
    (findConv c2cexFinal "c").map unreadOf = some 1 ∧
    c2cexFinal.currentConversation.map unreadOf = some 0 := by
  decide

/-- Claim C2 amended: activating a conversation zeroes its Store
unread_count synchronously, before the detail request is awaited, and
the View entry constructed when the response resolves carries
unread_count 0; the stronger every-reachable-state invariant fails when
a RECEIVED message is processed while the fetch is in flight. -/
theorem getConversationDetail_unread_zero :
    (∀ (cid : String) (s : EngineState) (c : Conversation),
        c ∈ ((getConversationDetailStart cid s).1).conversations → c.id = cid →
        c.unread_count = some 0) ∧
    (∀ (p : DetailPending) (resp : ConversationMessagesResponse) (s : EngineState),
        ∃ v : Conversation,
          (getConversationDetailResolve p resp s).currentConversation = some v ∧
          v.unread_count = some 0) := by
  constructor
  · intro cid s c hc hcid
    have hconvs : ((getConversationDetailStart cid s).1).conversations =
        s.conversations.map (fun conv : Conversation =>
          if conv.id = cid then { conv with unread_count := some 0 } else conv) := rfl
    rw [hconvs] at hc
    obtain ⟨a, _, hfa⟩ := List.mem_map.1 hc
    by_cases h : a.id = cid
    · rw [if_pos h] at hfa
      rw [← hfa]
    · rw [if_neg h] at hfa
      rw [← hfa] at hcid
      exact absurd hcid h
  · intro p resp s
    exact ⟨_, rfl, rfl⟩

/-- The C2 witness state: one Store entry for c with five unread. -/
def c2wState : EngineState :=
  baseState [{ mkConv "c" with unread_count := some 5 }] none

/-- Witness for the amended C2: activation zeroes the entry for c. -/
theorem getConversationDetail_unread_zero_witness :
    mkConv "c" ∈ ((getConversationDetailStart "c" c2wState).1).conversations ∧
    (mkConv "c").id = "c" ∧
    (mkConv "c").unread_count = some 0 :=
  ⟨by decide, by decide,
   getConversationDetail_unread_zero.1 "c" c2wState (mkConv "c") (by decide) (by decide)⟩

/-- The C4 counterexample state after a successful close of c. -/
def c4closedState : EngineState :=
  closeConversationResolve "c" (some "t1")
    (closeConversationStart (baseState [mkConv "c"] none))

/-- The C4 counterexample state after a conversation_updated push event
for c whose payload carries status OPEN. -/
def c4reopenedState : EngineState :=
  (updateConversation (mkConv "c") c4closedState).1

/-- Counterexample to C4: after a successful close the Store entry for c
is CLOSED, but a subsequently processed conversation_updated event whose
payload has status OPEN replaces the entry wholesale and the status is
OPEN again: the transition does reverse. -/
theorem closed_status_reopen_cex :
    (findConv c4closedState "c").map Conversation.status = some Status.CLOSED ∧
    (findConv c4reopenedState "c").map Conversation.status = some Status.OPEN := by
  decide

/-- Claim C4 amended: after a successful closeConversation the status of
the conversation is CLOSED in the Store and, when it is the active one,
in the View, with closed_at set from the response; this is not terminal,
since a later conversation_updated event replaces the Store entry
wholesale, payload status included. -/
theorem closeConversation_sets_closed (s : EngineState) (cid : String) (t : Option String)
    (i : Nat) (d : Conversation) (hi : i < s.conversations.length) :
    (if (s.conversations.getD i d).id = cid then
       ((closeConversationResolve cid t s).conversations.getD i d).status =
         Status.CLOSED ∧
       ((closeConversationResolve cid t s).conversations.getD i d).closed_at = t
     else (closeConversationResolve cid t s).conversations.getD i d =
       s.conversations.getD i d) ∧
    (∀ cur, s.currentConversation = some cur → cur.id = cid →
       ((closeConversationResolve cid t s).currentConversation.map Conversation.status =
          some Status.CLOSED ∧
        (closeConversationResolve cid t s).currentConversation.map Conversation.closed_at =
          some t)) := by
  obtain ⟨convs, cur0, pg, hmp, ld, cld, ldm, so⟩ := s
  have hconvs : (closeConversationResolve cid t
        ⟨convs, cur0, pg, hmp, ld, cld, ldm, so⟩).conversations =
      convs.map (fun conv : Conversation =>
        if conv.id = cid then { conv with status := Status.CLOSED, closed_at := t }
        else conv) := by
    cases cur0 with
    | none => rfl
    | some c0 =>
        by_cases h0 : c0.id = cid
        · simp [closeConversationResolve, h0]
        · simp [closeConversationResolve, h0]
  have hentry : (closeConversationResolve cid t
        ⟨convs, cur0, pg, hmp, ld, cld, ldm, so⟩).conversations.getD i d =
      (if (convs.getD i d).id = cid then
        { convs.getD i d with status := Status.CLOSED, closed_at := t }
      else convs.getD i d) := by
    rw [hconvs]
    exact getD_map_of_lt _ _ _ _ _ hi
  constructor
  · by_cases h : (convs.getD i d).id = cid
    · rw [if_pos h]
      exact ⟨by rw [hentry, if_pos h], by rw [hentry, if_pos h]⟩
    · rw [if_neg h]
      rw [hentry, if_neg h]
  · intro cur hcur hcid
    simp only at hcur
    subst hcur
    constructor
    · simp [closeConversationResolve, hcid]
    · simp [closeConversationResolve, hcid]

/-- The C4 witness state: conversation c is in the Store and active. -/
def c4wState : EngineState := baseState [mkConv "c"] (some (mkConv "c"))

/-- Witness for the amended C4: closing c at a concrete state. -/
theorem closeConversation_sets_closed_witness :
    0 < c4wState.conversations.length ∧
    (if (c4wState.conversations.getD 0 (mkConv "x")).id = "c" then
       ((closeConversationResolve "c" (some "t1") c4wState).conversations.getD 0
           (mkConv "x")).status = Status.CLOSED ∧
       ((closeConversationResolve "c" (some "t1") c4wState).conversations.getD 0
           (mkConv "x")).closed_at = some "t1"
     else (closeConversationResolve "c" (some "t1") c4wState).conversations.getD 0
       (mkConv "x") = c4wState.conversations.getD 0 (mkConv "x")) ∧
    ((closeConversationResolve "c" (some "t1") c4wState).currentConversation.map
        Conversation.status = some Status.CLOSED ∧
     (closeConversationResolve "c" (some "t1") c4wState).currentConversation.map
        Conversation.closed_at = some (some "t1")) :=
  ⟨by decide,
   (closeConversation_sets_closed c4wState "c" (some "t1") 0 (mkConv "x") (by decide)).1,
   (closeConversation_sets_closed c4wState "c" (some "t1") 0 (mkConv "x") (by decide)).2
     (mkConv "c") rfl rfl⟩

/-- The C8 counterexample message: the conversation id arrives in the
conversation_id field only. -/
def c8cexMsg : Message := mkMessage "m1" none (some "c") Direction.RECEIVED "hi"

/-- The C8 counterexample state: the Store holds conversation c. -/
def c8cexState : EngineState := baseState [mkConv "c"] none

/-- Counterexample to C8: the current handler leaves the state entirely
unchanged on a conversation_id-shaped event, so that shape never reaches
the matching Store entry; the sibling handler, keyed on the other field,
does reach it.  No single handler supports both shapes. -/
theorem conversation_id_shape_cex :
    handleNewMessage c8cexMsg c8cexState = c8cexState ∧
    (findConv (handleNewMessageV2 c8cexMsg c8cexState) "c").map unreadOf = some 1 := by
  decide

/-- Claim C8 amended: each handler version resolves the target through
exactly one field.  The current handler reads only the conversation
field and is the identity on events that lack it, while the sibling
version reads only conversation_id and is the identity on events that
lack that; each reaches the matching Store entry for its own shape. -/
theorem newMessage_shape_resolution :
    (∀ (m : Message) (s : EngineState), m.conversation = none →
        handleNewMessage m s = s) ∧
    (∀ (m : Message) (s : EngineState), m.conversation_id = none →
        handleNewMessageV2 m s = s) ∧
    (∀ (s : EngineState) (m : Message) (i : Nat) (d : Conversation),
        i < s.conversations.length →
        m.conversation = some (s.conversations.getD i d).id →
        ((handleNewMessage m s).conversations.getD i d).last_message = some m) ∧
    (∀ (s : EngineState) (m : Message) (i : Nat) (d : Conversation),
        i < s.conversations.length →
        m.conversation_id = some (s.conversations.getD i d).id →
        ((handleNewMessageV2 m s).conversations.getD i d).last_message = some m) := by
  refine ⟨?_, ?_, ?_, ?_⟩
  · intro m s hm
    apply handleNewMessage_frame
    · intro c _
      rw [hm]
      exact fun h => Option.noConfusion h
    · unfold newMessageTargetsActive
      cases s.currentConversation with
      | none => rfl
      | some cur => simp [hm]
  · intro m s hm
    apply handleNewMessageV2_frame
    · intro c _
      rw [hm]
      exact fun h => Option.noConfusion h
    · unfold newMessageTargetsActiveV2
      cases s.currentConversation with
      | none => rfl
      | some cur => simp [hm]
  · intro s m i d hi hm
    rw [handleNewMessage_getD m s i d hi]
    unfold applyNewMessageToConv
    rw [if_pos hm]
  · intro s m i d hi hm
    rw [handleNewMessageV2_getD m s i d hi]
    unfold applyNewMessageToConvV2
    rw [if_pos hm]

/-- A message carrying its id only in conversation_id. -/
def c8wMsgA : Message := mkMessage "w1" none (some "q") Direction.SENT "x"

/-- A message carrying its id only in conversation. -/
def c8wMsgB : Message := mkMessage "w2" (some "q") none Direction.SENT "x"

/-- The C8 witness state. -/
def c8wState : EngineState := baseState [mkConv "q"] none

/-- Witness for the amended C8: both handlers at both shapes. -/
theorem newMessage_shape_resolution_witness :
    handleNewMessage c8wMsgA c8wState = c8wState ∧
    handleNewMessageV2 c8wMsgB c8wState = c8wState ∧
    ((handleNewMessage c8wMsgB c8wState).conversations.getD 0 (mkConv "x")).last_message =
      some c8wMsgB ∧
    ((handleNewMessageV2 c8wMsgA c8wState).conversations.getD 0 (mkConv "x")).last_message =
      some c8wMsgA :=
  ⟨newMessage_shape_resolution.1 c8wMsgA c8wState rfl,
   newMessage_shape_resolution.2.1 c8wMsgB c8wState rfl,
   newMessage_shape_resolution.2.2.1 c8wState c8wMsgB 0 (mkConv "x") (by decide) (by decide),
   newMessage_shape_resolution.2.2.2 c8wState c8wMsgA 0 (mkConv "x") (by decide) (by decide)⟩

end RealtimeInbox
